import Mathlib

/-!
Shallow embedding of the cart-and-order consistency engine of the storefront
repository, translated from:

* `src/client/lib/supabaseClient.ts` — the remote-store helper functions
  (`cart.getItems`, `cart.addItem`, `cart.updateQuantity`, `cart.removeItem`,
  `cart.clearCart`, `orders.updateStatus`, `orders.create`);
* `src/client/contexts/CartContext.tsx` — the client-resident cart view
  (`calculateTotals`, `refreshCart`, `removeFromCart`, `updateQuantity`,
  `clearCart`);
* `supabase/migrations/20250907000000_final_consolidated_schema.sql` — the
  table constraints that the store enforces: `UNIQUE(user_id, product_id)` and
  `CHECK (quantity > 0)` on `cart_items`, the status value CHECK on `orders`,
  and the row-level-security policy that exposes a product row to a plain user
  only when `is_active = true`.

The remote store is modelled as explicit state (`CartStore`, a list of rows
plus an id counter); asynchronous supabase calls become pure functions from
store state to store state paired with an `Except` result, and a fetch whose
outcome depends on the network is abstracted as an `Except` response argument.
Prices are exact rationals (`numeric(10,2)` in the schema); quantities are
integers (JS numbers used as integers).
-/

/-- The order status values admitted by the `CHECK` constraint of the
`orders` table in the final migration. -/
inductive OrderStatus where
  | pending
  | processing
  | shipped
  | completed
  | cancelled
  deriving DecidableEq

/-- A row of the `products` table, restricted to the fields the cart and
order engines read (`id`, `name`, `price`, `category`, `stock`,
`is_active`); timestamps, rating and the optional presentation fields are
never consulted by the embedded code. -/
structure Product where
  id : String
  name : String
  price : ℚ
  category : String
  stock : Int
  is_active : Bool
  deriving DecidableEq

/-- A row of the `cart_items` table (identity, owner, product reference,
quantity). -/
structure CartRow where
  id : Nat
  user_id : String
  product_id : String
  quantity : Int
  deriving DecidableEq

/-- The store-side `cart_items` state: the rows plus the id that the next
inserted row receives (`gen_random_uuid()` abstracted as a counter). -/
structure CartStore where
  rows : List CartRow
  nextId : Nat
  deriving DecidableEq

/-- A cart line as returned by `cart.getItems`' join
`select('*, product:products(*)')`: the row fields plus the embedded product,
which is `none` when the referenced product row is not visible to the caller
(row-level security exposes a product to a plain user only while
`is_active = true`). -/
structure CartItem where
  id : Nat
  product_id : String
  quantity : Int
  product : Option Product
  deriving DecidableEq

/-- Errors a store call can surface: a `UNIQUE` violation, a `CHECK`
violation, or `.single()` finding no (or more than one) row. -/
inductive DbError where
  | uniqueViolation
  | checkViolation
  | noRows
  deriving DecidableEq

/-- One entry of an order's `products` jsonb snapshot
(`{product_id, title, price, quantity}` per the schema comment). -/
structure SnapshotItem where
  product_id : String
  title : String
  price : ℚ
  quantity : Int
  deriving DecidableEq

/-- A row of the `orders` table, restricted to the fields the embedded code
reads and writes. -/
structure OrderRow where
  id : String
  user_id : String
  products : List SnapshotItem
  total : ℚ
  status : OrderStatus
  deriving DecidableEq

/-- Does a `cart_items` row belong to the (user, product) pair? This is the
`.eq('user_id', userId).eq('product_id', productId)` filter of
`cart.addItem`'s lookup and the column pair of the `UNIQUE` constraint. -/
def fits (u p : String) (r : CartRow) : Bool :=
  r.user_id == u && r.product_id == p

/-- `select('*').eq('user_id', u).eq('product_id', p).single()` with the
error discarded, as in `cart.addItem`: `some` row exactly when the filter
matches a single row, `none` otherwise (`.single()` errors on zero or on
several rows and the destructuring keeps only `data`). -/
def selectSingleRow (rows : List CartRow) (u p : String) : Option CartRow :=
  match rows.filter (fits u p) with
  | [r] => some r
  | _ => none

/-- `insert([{ user_id, product_id, quantity }])` into `cart_items`: the
store rejects the row when the `UNIQUE(user_id, product_id)` constraint is
violated or the `CHECK (quantity > 0)` fails; otherwise the row is appended
with the next fresh id. -/
def insertRow (s : CartStore) (u p : String) (q : Int) :
    CartStore × Except DbError CartRow :=
  if s.rows.any (fits u p) then
    (s, .error .uniqueViolation)
  else if q ≤ 0 then
    (s, .error .checkViolation)
  else
    let r : CartRow := ⟨s.nextId, u, p, q⟩
    ({ rows := s.rows ++ [r], nextId := s.nextId + 1 }, .ok r)

/-- The `.select().single()` step after an update of `cart_items` rows
matched by id: the store adopts the updated rows and reports the single
matching row, or a no-row error when the match is not unique. -/
def updateRowAux (s : CartStore) (rows' : List CartRow) (rid : Nat) :
    CartStore × Except DbError CartRow :=
  match rows'.filter (fun r => r.id == rid) with
  | [r] => ({ s with rows := rows' }, .ok r)
  | _ => ({ s with rows := rows' }, .error .noRows)

/-- `update({ quantity }).eq('id', rid).select().single()` on `cart_items`:
no matching row makes `.single()` fail with no change; a non-positive
quantity trips `CHECK (quantity > 0)`; otherwise the matching row's quantity
is replaced and returned via `updateRowAux`. -/
def updateRowQuantity (s : CartStore) (rid : Nat) (q : Int) :
    CartStore × Except DbError CartRow :=
  if (s.rows.filter (fun r => r.id == rid)).isEmpty then
    (s, .error .noRows)
  else if q ≤ 0 then
    (s, .error .checkViolation)
  else
    updateRowAux s
      (s.rows.map (fun r => if r.id == rid then { r with quantity := q } else r)) rid

namespace cart

/-- The store's answer to `cart.getItems`' query: the user's `cart_items`
rows, each joined with the product row when it is visible to the caller
(`visible` is the list of product rows the row-level-security policies expose
to this principal). -/
def selectCartItems (s : CartStore) (visible : List Product) (u : String) :
    List CartItem :=
  (s.rows.filter (fun r => r.user_id == u)).map fun r =>
    ⟨r.id, r.product_id, r.quantity,
      match visible.filter (fun p => p.id == r.product_id) with
      | [p] => some p
      | _ => none⟩

/-- `cart.getItems`: on a store error it logs and returns `[]`; otherwise it
returns the fetched rows (`data || []`). -/
def getItems (resp : Except DbError (List CartItem)) : List CartItem :=
  match resp with
  | .error _ => []
  | .ok items => items

/-- The write phase of `cart.addItem`, taking the result of the earlier
existence lookup as an argument (the lookup and the write are two separate
store round-trips in the source, so the store may change in between): if the
lookup found a row, its quantity is updated to `existing.quantity + quantity`
by id; otherwise a fresh row is inserted. -/
def addItemWithSel (s : CartStore) (u p : String) (q : Int)
    (sel : Option CartRow) : CartStore × Except DbError CartRow :=
  match sel with
  | some r => updateRowQuantity s r.id (r.quantity + q)
  | none => insertRow s u p q

/-- `cart.addItem(userId, productId, quantity)` when no interleaving write
occurs between its lookup and its write: the lookup runs against the same
store state the write then mutates. -/
def addItem (s : CartStore) (u p : String) (q : Int) :
    CartStore × Except DbError CartRow :=
  addItemWithSel s u p q (selectSingleRow s.rows u p)

/-- `cart.removeItem(itemId)`: `delete().eq('id', itemId)`; deleting zero
rows is still a success. -/
def removeItem (s : CartStore) (rid : Nat) : CartStore × Except DbError Unit :=
  ({ s with rows := s.rows.filter (fun r => !(r.id == rid)) }, .ok ())

/-- `cart.updateQuantity(itemId, quantity)`: a non-positive quantity is
delegated to `removeItem`; otherwise the row's quantity is replaced (the
returned row is not consulted by any caller, so the result is reduced to
success/failure). -/
def updateQuantity (s : CartStore) (rid : Nat) (q : Int) :
    CartStore × Except DbError Unit :=
  if q ≤ 0 then
    removeItem s rid
  else
    let res := updateRowQuantity s rid q
    (res.1, res.2.map fun _ => ())

/-- `cart.clearCart(userId)`: `delete().eq('user_id', userId)`. -/
def clearCart (s : CartStore) (u : String) : CartStore × Except DbError Unit :=
  ({ s with rows := s.rows.filter (fun r => !(r.user_id == u)) }, .ok ())

end cart

/-- The client-resident cart state of `CartContext` (`CartState` in the
source): the transformed items, the derived totals, and the loading flag. -/
structure CartState where
  items : List CartItem
  total : ℚ
  itemCount : Int
  loading : Bool
  deriving DecidableEq

/-- The callback of the `total` reduce of `calculateTotals`:
`(sum, item) => sum + item.product.price * item.quantity`. Reading `.price`
of an absent product throws at runtime, so the step is `none` as soon as the
accumulator already failed or the item's product is unresolved. -/
def calcStep (acc : Option ℚ) (it : CartItem) : Option ℚ := do
  let t ← acc
  let p ← it.product
  pure (t + p.price * (it.quantity : ℚ))

/-- The `total` reduce of `calculateTotals`:
`items.reduce((sum, item) => sum + item.product.price * item.quantity, 0)`. -/
def calcTotal (items : List CartItem) : Option ℚ :=
  items.foldl calcStep (some 0)

/-- The `itemCount` reduce of `calculateTotals`:
`items.reduce((sum, item) => sum + item.quantity, 0)`; it never touches the
product, so it cannot fail. -/
def calcItemCount (items : List CartItem) : Int :=
  items.foldl (fun c it => c + it.quantity) 0

/-- `calculateTotals(items)` of `CartContext`: both reduces in order; the
function throws (is `none`) exactly when the `total` reduce does. -/
def calculateTotals (items : List CartItem) : Option (ℚ × Int) :=
  (calcTotal items).map fun t => (t, calcItemCount items)

/-- The `cartItems.map(...)` transform of `refreshCart`: a field-for-field
copy of each fetched line; the `item.product!` non-null assertion is a
compile-time cast with no runtime effect, so an unresolved product stays
unresolved. -/
def transformItems (items : List CartItem) : List CartItem :=
  items.map fun it => ⟨it.id, it.product_id, it.quantity, it.product⟩

/-- `refreshCart` of `CartContext`, as a function of the authenticated user,
the store's response to `cart.getItems`, and the previous client state.
No user: the items and totals are cleared in place. Otherwise the fetched
items are transformed and the totals recomputed; if that computation throws
(an unresolved product), the `catch` branch leaves the previous state with
`loading` cleared, and nothing new is published. -/
def refreshCart (user : Option String) (resp : Except DbError (List CartItem))
    (prev : CartState) : CartState :=
  match user with
  | none => { prev with items := [], total := 0, itemCount := 0 }
  | some _ =>
    let cartItems := cart.getItems resp
    let transformed := transformItems cartItems
    match calculateTotals transformed with
    | some (t, c) => { items := transformed, total := t, itemCount := c, loading := false }
    | none => { prev with loading := false }

/-- `removeFromCart(itemId)` of `CartContext`: with no user it returns at
once; otherwise it calls `cart.removeItem` and refreshes from the store
(`visible` is the product set the caller may see). -/
def removeFromCart (user : Option String) (visible : List Product)
    (s : CartStore) (itemId : Nat) (st : CartState) : CartStore × CartState :=
  match user with
  | none => (s, st)
  | some u =>
    let (s', _) := cart.removeItem s itemId
    (s', refreshCart (some u) (.ok (cart.selectCartItems s' visible u)) st)

/-- `updateQuantity(itemId, quantity)` of `CartContext`: with no user it
returns at once; otherwise it calls `cart.updateQuantity` and refreshes. -/
def clientUpdateQuantity (user : Option String) (visible : List Product)
    (s : CartStore) (itemId : Nat) (q : Int) (st : CartState) :
    CartStore × CartState :=
  match user with
  | none => (s, st)
  | some u =>
    let (s', _) := cart.updateQuantity s itemId q
    (s', refreshCart (some u) (.ok (cart.selectCartItems s' visible u)) st)

/-- `clearCart()` of `CartContext`: with no user it returns at once;
otherwise it calls `cart.clearCart` and refreshes. -/
def clientClearCart (user : Option String) (visible : List Product)
    (s : CartStore) (st : CartState) : CartStore × CartState :=
  match user with
  | none => (s, st)
  | some u =>
    let (s', _) := cart.clearCart s u
    (s', refreshCart (some u) (.ok (cart.selectCartItems s' visible u)) st)

namespace orders

/-- `orders.updateStatus(orderId, status)`:
`update({ status }).eq('id', orderId).select().single()` — every row whose id
matches gets the requested status (any value the status CHECK admits), and
`.single()` then reports the updated row or a no-row error. No transition
table is consulted anywhere on this path (`updateOrderStatus` in the admin
panel forwards the picked value directly). -/
def updateStatus (rows : List OrderRow) (oid : String) (st : OrderStatus) :
    List OrderRow × Except DbError OrderRow :=
  let rows' := rows.map fun o => if o.id == oid then { o with status := st } else o
  match rows'.filter (fun o => o.id == oid) with
  | [o] => (rows', .ok o)
  | _ => (rows', .error .noRows)

end orders

/-- The order state machine of the spec (§3/§4.2):
`pending → processing → shipped → completed`, and
`pending|processing → cancelled`. Stated from the spec's words for
comparison with the code's `orders.updateStatus`. -/
def allowedTransition : OrderStatus → OrderStatus → Bool
  | .pending, .processing => true
  | .processing, .shipped => true
  | .shipped, .completed => true
  | .pending, .cancelled => true
  | .processing, .cancelled => true
  | _, _ => false

/-- Is a cart line's resolved product currently active? (`false` when the
product did not resolve.) This is the "filtering for active products" of the
spec's checkout algorithm and of its derived-total definition. -/
def lineActive (it : CartItem) : Bool :=
  match it.product with
  | some p => p.is_active
  | none => false

/-- The lines of a cart view whose resolved product is currently active. -/
def activeLines (items : List CartItem) : List CartItem :=
  items.filter lineActive

/-- `price(product) × quantity` of one cart line (`0` when the product is
unresolved); the building block of the spec's `total`. -/
def lineAmount (it : CartItem) : ℚ :=
  (match it.product with
   | some p => p.price
   | none => 0) * (it.quantity : ℚ)

/-- The spec's derived `total`, stated from the spec's words for comparison
with the code's `calculateTotals`: `Σ price(product) × quantity` over lines
whose resolved product is currently active only. -/
def specActiveTotal (items : List CartItem) : ℚ :=
  ((activeLines items).map lineAmount).sum

/-- The error taxonomy of the spec's checkout engine (§7), for the
spec-modelled `createOrder`. -/
inductive CheckoutError where
  | unauthenticated
  | emptyCart
  | validationError
  deriving DecidableEq

/-- Modelled from the spec: the repository's checkout engine
(`client/pages/Checkout.tsx`, imported by `App.tsx` but missing from the
source snapshot) — `createOrder(user, shippingAddress)` per §4.2 of the spec:
it reads the current cart view, requires an authenticated user and a
non-empty shipping address, filters the view for active products, fails with
`EmptyCart` when zero lines remain (no order row, no cart change), and
otherwise persists one `pending` order with the recomputed total and a
snapshot of the filtered lines, then clears the user's cart rows. -/
def createOrder (user : Option String) (viewItems : List CartItem)
    (shippingAddress : String) (s : CartStore) (orderRows : List OrderRow)
    (newId : String) : CartStore × List OrderRow × Except CheckoutError OrderRow :=
  match user with
  | none => (s, orderRows, .error .unauthenticated)
  | some u =>
    if shippingAddress.isEmpty then
      (s, orderRows, .error .validationError)
    else
      let lines := activeLines viewItems
      if lines.isEmpty then
        (s, orderRows, .error .emptyCart)
      else
        let total := (lines.map lineAmount).sum
        let snapshot := lines.map fun it =>
          { product_id := it.product_id
            title := match it.product with | some p => p.name | none => ""
            price := match it.product with | some p => p.price | none => 0
            quantity := it.quantity : SnapshotItem }
        let o : OrderRow := ⟨newId, u, snapshot, total, .pending⟩
        let (s', _) := cart.clearCart s u
        (s', orderRows ++ [o], .ok o)

section Helpers

/-- Filtering after a map that does not change the predicate's verdict is the
map of the filter. -/
lemma filter_map_invariant (l : List CartRow) (g : CartRow → CartRow)
    (pr : CartRow → Bool) (h : ∀ r, pr (g r) = pr r) :
    (l.map g).filter pr = (l.filter pr).map g := by
  induction l with
  | nil => rfl
  | cons a l ih =>
    simp only [List.map_cons, List.filter_cons, h a]
    by_cases hf : pr a <;> simp [hf, ih]

/-- The `itemCount` reduce computes the sum of the quantities. -/
lemma calcItemCount_eq_sum (items : List CartItem) :
    calcItemCount items = (items.map (·.quantity)).sum := by
  suffices h : ∀ (l : List CartItem) (c : Int),
      l.foldl (fun c it => c + it.quantity) c = c + (l.map (·.quantity)).sum by
    simpa using h items 0
  intro l
  induction l with
  | nil => simp
  | cons a l ih => intro c; simp [ih, add_assoc]

/-- The `total` reduce from a failed accumulator stays failed. -/
lemma calcTotal_fold_none (l : List CartItem) :
    l.foldl calcStep none = none := by
  induction l with
  | nil => rfl
  | cons a l ih => rw [List.foldl_cons]; exact ih

/-- The `total` reduce from a live accumulator: it adds up
`price × quantity` while every product resolves, and fails as soon as one
does not. -/
lemma calcTotal_fold_some (l : List CartItem) (t : ℚ) :
    l.foldl calcStep (some t)
      = if l.all (fun it => it.product.isSome)
        then some (t + (l.map lineAmount).sum)
        else none := by
  induction l generalizing t with
  | nil => simp
  | cons a l ih =>
    rw [List.foldl_cons]
    match ha : a.product with
    | none =>
      have hstep : calcStep (some t) a = none := by simp [calcStep, ha]
      rw [hstep, calcTotal_fold_none]
      simp [ha]
    | some p =>
      have hstep : calcStep (some t) a = some (t + p.price * (a.quantity : ℚ)) := by
        simp [calcStep, ha]
      rw [hstep, ih]
      by_cases hall : l.all (fun it => it.product.isSome) <;>
        simp [hall, ha, lineAmount, add_assoc]

/-- `calculateTotals` in closed form: when every product resolves it returns
the sum of `price × quantity` over all lines and the sum of all quantities;
otherwise it throws. -/
lemma calculateTotals_closed (items : List CartItem) :
    calculateTotals items
      = if items.all (fun it => it.product.isSome)
        then some ((items.map lineAmount).sum, (items.map (·.quantity)).sum)
        else none := by
  unfold calculateTotals calcTotal
  rw [calcTotal_fold_some]
  by_cases hall : items.all (fun it => it.product.isSome) <;>
    simp [hall, calcItemCount_eq_sum]

/-- The `refreshCart` transform is a field-for-field copy. -/
lemma transformItems_eq (items : List CartItem) : transformItems items = items := by
  simp [transformItems]

end Helpers

section AddItemLemmas

/-- `cart.addItem` on a store with no line for the pair: the lookup finds
nothing and a fresh row is inserted. -/
lemma addItem_fresh (s : CartStore) (u p : String) (q : Int) (hq : 0 < q)
    (hnone : s.rows.filter (fits u p) = []) :
    cart.addItem s u p q
      = ({ rows := s.rows ++ [⟨s.nextId, u, p, q⟩], nextId := s.nextId + 1 },
         .ok ⟨s.nextId, u, p, q⟩) := by
  have hany : s.rows.any (fits u p) = false := by
    by_cases h : s.rows.any (fits u p)
    · rcases List.any_eq_true.mp h with ⟨x, hx, hfx⟩
      have hxf : x ∈ s.rows.filter (fits u p) := List.mem_filter.mpr ⟨hx, hfx⟩
      rw [hnone] at hxf
      exact absurd hxf (List.not_mem_nil x)
    · simpa using h
  unfold cart.addItem cart.addItemWithSel selectSingleRow
  rw [hnone]
  simp [insertRow, hany, not_le.mpr hq]

/-- `cart.addItem` on a store whose unique line for the pair is `r` (and in
which `r` is also the unique row with its id): the lookup finds `r` and its
quantity is updated to `r.quantity + q`. -/
lemma addItem_existing (s : CartStore) (u p : String) (q : Int) (r : CartRow)
    (hfind : s.rows.filter (fits u p) = [r])
    (hidf : s.rows.filter (fun x => x.id == r.id) = [r])
    (hq : 0 < r.quantity + q) :
    cart.addItem s u p q
      = ({ s with rows := s.rows.map fun x =>
            if x.id == r.id then { x with quantity := r.quantity + q } else x },
         .ok { r with quantity := r.quantity + q }) := by
  unfold cart.addItem cart.addItemWithSel selectSingleRow
  rw [hfind]
  show updateRowQuantity s r.id (r.quantity + q) = _
  unfold updateRowQuantity
  rw [hidf]
  have hinv : ∀ x : CartRow,
      ((if x.id == r.id then { x with quantity := r.quantity + q } else x).id == r.id)
        = (x.id == r.id) := by
    intro x
    by_cases h : x.id == r.id <;> simp [h]
  rw [if_neg (by simp), if_neg (not_le.mpr hq)]
  unfold updateRowAux
  rw [filter_map_invariant s.rows
      (fun x => if x.id == r.id then { x with quantity := r.quantity + q } else x)
      (fun x => x.id == r.id) hinv, hidf]
  simp

end AddItemLemmas

/-- C1: for every user, product and positive quantities `n1`, `n2`, on a
well-formed store (fresh-id counter above every row id) holding no line for
the (user, product) pair, running `cart.addItem` twice with no intervening
remove leaves exactly one `cart_items` row for the pair, and its quantity is
`n1 + n2`: the second add updates the existing line instead of inserting a
duplicate. -/
theorem addItem_twice_single_line (s : CartStore) (u p : String) (n1 n2 : Int)
    (h1 : 0 < n1) (h2 : 0 < n2)
    (hfresh : s.rows.filter (fits u p) = [])
    (hids : ∀ r ∈ s.rows, r.id < s.nextId) :
    ((cart.addItem (cart.addItem s u p n1).1 u p n2).1).rows.filter (fits u p)
      = [⟨s.nextId, u, p, n1 + n2⟩] := by
  rw [addItem_fresh s u p n1 h1 hfresh]
  set r0 : CartRow := ⟨s.nextId, u, p, n1⟩ with hr0
  have hfits0 : fits u p r0 = true := by simp [fits, hr0]
  have hfind1 : (s.rows ++ [r0]).filter (fits u p) = [r0] := by
    rw [List.filter_append, hfresh, List.nil_append]
    simp [hfits0]
  have hid1 : (s.rows ++ [r0]).filter (fun x => x.id == r0.id) = [r0] := by
    rw [List.filter_append]
    have hold : s.rows.filter (fun x => x.id == r0.id) = [] := by
      rw [List.filter_eq_nil_iff]
      intro x hx
      have := hids x hx
      simp only [hr0, beq_iff_eq]
      omega
    rw [hold, List.nil_append]
    simp
  have hstep2 := addItem_existing
    ({ rows := s.rows ++ [r0], nextId := s.nextId + 1 }) u p n2 r0
    hfind1 hid1 (by simp only [hr0]; omega)
  rw [hstep2]
  have hinv : ∀ x : CartRow,
      fits u p (if x.id == r0.id then { x with quantity := r0.quantity + n2 } else x)
        = fits u p x := by
    intro x
    by_cases h : x.id == r0.id <;> simp [h, fits]
  rw [filter_map_invariant (s.rows ++ [r0])
      (fun x => if x.id == r0.id then { x with quantity := r0.quantity + n2 } else x)
      (fits u p) hinv, hfind1]
  simp [hr0]

/-- C1 witness: the property at a concrete empty store with quantities 2
and 3. -/
theorem addItem_twice_single_line_witness :
    (0 : Int) < 2 ∧ (0 : Int) < 3 ∧
    (CartStore.mk [] 0).rows.filter (fits "u" "p") = [] ∧
    ((cart.addItem (cart.addItem ⟨[], 0⟩ "u" "p" 2).1 "u" "p" 3).1).rows.filter (fits "u" "p")
      = [⟨0, "u", "p", 5⟩] :=
  ⟨by decide, by decide, rfl,
    addItem_twice_single_line ⟨[], 0⟩ "u" "p" 2 3 (by decide) (by decide) rfl
      (by simp)⟩

/-- C8: `cart.updateQuantity` with a non-positive quantity is exactly
`cart.removeItem` — afterwards no row with the line's id remains, so the
line is absent from the next refresh — and with a quantity of at least 1 it
replaces the matching row's quantity with that value (replace semantics, not
increment). -/
theorem updateQuantity_remove_or_replace (s : CartStore) (rid : Nat) (q : Int) :
    (q ≤ 0 →
      cart.updateQuantity s rid q = cart.removeItem s rid ∧
      ∀ r ∈ (cart.updateQuantity s rid q).1.rows, r.id ≠ rid) ∧
    (1 ≤ q →
      (cart.updateQuantity s rid q).1.rows
        = s.rows.map fun r => if r.id == rid then { r with quantity := q } else r) := by
  constructor
  · intro hq
    have heq : cart.updateQuantity s rid q = cart.removeItem s rid := by
      simp [cart.updateQuantity, hq]
    refine ⟨heq, ?_⟩
    rw [heq]
    intro r hr
    simp only [cart.removeItem] at hr
    rcases List.mem_filter.mp hr with ⟨-, hpred⟩
    simpa using hpred
  · intro hq
    have hq' : ¬ q ≤ 0 := by omega
    simp only [cart.updateQuantity, if_neg hq', updateRowQuantity]
    by_cases hvac : (s.rows.filter (fun r => r.id == rid)).isEmpty
    · rw [if_pos hvac]
      have hnone : ∀ x ∈ s.rows,
          (if x.id == rid then { x with quantity := q } else x) = x := by
        intro x hx
        have : ¬ (x.id == rid) = true := by
          intro hbeq
          have hmem : x ∈ s.rows.filter (fun r => r.id == rid) :=
            List.mem_filter.mpr ⟨hx, hbeq⟩
          rw [List.isEmpty_iff] at hvac
          rw [hvac] at hmem
          exact absurd hmem (List.not_mem_nil x)
        rw [if_neg this]
      calc s.rows = s.rows.map id := by rw [List.map_id]
        _ = s.rows.map fun r => if r.id == rid then { r with quantity := q } else r :=
          (List.map_congr_left fun x hx => (hnone x hx).symm).symm ▸ rfl
    · rw [if_neg hvac]
      unfold updateRowAux
      split <;> rfl

/-- C8 witness: the property at a concrete one-row store for quantities 0
and 4. -/
theorem updateQuantity_remove_or_replace_witness :
    (cart.updateQuantity ⟨[⟨0, "u", "p", 2⟩], 1⟩ 0 0
        = cart.removeItem ⟨[⟨0, "u", "p", 2⟩], 1⟩ 0) ∧
    ((cart.updateQuantity ⟨[⟨0, "u", "p", 2⟩], 1⟩ 0 4).1.rows
        = [⟨0, "u", "p", 4⟩]) :=
  ⟨((updateQuantity_remove_or_replace ⟨[⟨0, "u", "p", 2⟩], 1⟩ 0 0).1 (by decide)).1,
    by
      rw [(updateQuantity_remove_or_replace ⟨[⟨0, "u", "p", 2⟩], 1⟩ 0 4).2 (by decide)]
      rfl⟩

/-- C9: `cart.removeItem` is idempotent: it always reports success, removing
twice equals removing once, and removing a line that is already absent
changes nothing. -/
theorem removeItem_idempotent (s : CartStore) (rid : Nat) :
    (cart.removeItem s rid).2 = .ok () ∧
    cart.removeItem (cart.removeItem s rid).1 rid = cart.removeItem s rid ∧
    ((∀ r ∈ s.rows, r.id ≠ rid) → (cart.removeItem s rid).1 = s) := by
  refine ⟨rfl, ?_, ?_⟩
  · simp [cart.removeItem, List.filter_filter]
  · intro h
    rcases s with ⟨rows, nid⟩
    simp only [cart.removeItem]
    congr 1
    rw [List.filter_eq_self]
    intro r hr
    simpa using h r hr

/-- C9 witness: the property at a concrete one-row store, removing an id
that is absent. -/
theorem removeItem_idempotent_witness :
    (cart.removeItem ⟨[⟨0, "u", "p", 1⟩], 1⟩ 5).2 = .ok () ∧
    cart.removeItem (cart.removeItem ⟨[⟨0, "u", "p", 1⟩], 1⟩ 5).1 5
      = cart.removeItem ⟨[⟨0, "u", "p", 1⟩], 1⟩ 5 ∧
    (cart.removeItem ⟨[⟨0, "u", "p", 1⟩], 1⟩ 5).1 = ⟨[⟨0, "u", "p", 1⟩], 1⟩ :=
  ⟨(removeItem_idempotent ⟨[⟨0, "u", "p", 1⟩], 1⟩ 5).1,
    (removeItem_idempotent ⟨[⟨0, "u", "p", 1⟩], 1⟩ 5).2.1,
    (removeItem_idempotent ⟨[⟨0, "u", "p", 1⟩], 1⟩ 5).2.2 (by decide)⟩

/-- C10: with no authenticated user, the client's `removeFromCart`,
`updateQuantity` and `clearCart` all return at once, leaving both the store
and the local cart state exactly as they were. -/
theorem noUser_cart_ops_noop (visible : List Product) (s : CartStore)
    (rid : Nat) (q : Int) (st : CartState) :
    removeFromCart none visible s rid st = (s, st) ∧
    clientUpdateQuantity none visible s rid q st = (s, st) ∧
    clientClearCart none visible s st = (s, st) :=
  ⟨rfl, rfl, rfl⟩

/-- C2 counterexample: a cart view with a single resolved but inactive
product (price 10, quantity 2). The claim says such a line contributes
nothing to `total` (the spec total over active lines is `0`), but the code's
`calculateTotals` returns a total of `20`: it never consults `is_active`. -/
theorem calculateTotals_inactive_cex :
    calculateTotals [⟨0, "p1", 2, some ⟨"p1", "A", 10, "c", 5, false⟩⟩]
      = some (20, 2) ∧
    specActiveTotal [⟨0, "p1", 2, some ⟨"p1", "A", 10, "c", 5, false⟩⟩] = 0 ∧
    (20 : ℚ) ≠ 0 := by
  refine ⟨?_, rfl, by norm_num⟩
  show (calcTotal _).map _ = _
  norm_num [calcTotal, calcStep, calcItemCount]

/-- C2 (amended): `calculateTotals` sums `price × quantity` over all lines
whose product resolved, with no regard to `is_active` — an inactive
product's line contributes fully — and `itemCount` sums the quantities over
all lines; when any line's product is unresolved the computation throws
instead. -/
theorem calculateTotals_sums_all_lines (items : List CartItem) :
    calculateTotals items
      = if items.all (fun it => it.product.isSome)
        then some ((items.map lineAmount).sum, (items.map (·.quantity)).sum)
        else none :=
  calculateTotals_closed items

/-- C3 counterexample: an order currently `cancelled`. The claim says
`updateStatus(order, completed)` fails with `InvalidTransition` and changes
nothing, but the code succeeds and overwrites the status (the transition
table of the spec rejects it). -/
theorem updateStatus_cancelled_completed_cex :
    allowedTransition .cancelled .completed = false ∧
    orders.updateStatus [⟨"o1", "u", [], 0, .cancelled⟩] "o1" .completed
      = ([⟨"o1", "u", [], 0, .completed⟩], .ok ⟨"o1", "u", [], 0, .completed⟩) :=
  ⟨rfl, rfl⟩

/-- C3 (amended): `orders.updateStatus` performs no transition validation:
on a store holding the order, every requested status — allowed by the spec's
table or not — succeeds and overwrites the order's status. In particular
cancelling a `pending` order succeeds, and so does completing a `cancelled`
one. -/
theorem updateStatus_unconditional (o : OrderRow) (st : OrderStatus) :
    orders.updateStatus [o] o.id st
      = ([{ o with status := st }], .ok { o with status := st }) := by
  simp [orders.updateStatus]

/-- C4 counterexample: a fetched cart of one line whose product does not
resolve, against a previous view holding one resolved line. The claim says
`refresh` discards the unresolved line and publishes a view of only the
resolved lines (here: no lines); the code instead keeps the previous items
(the totals recomputation throws and the `catch` leaves the old view). -/
theorem refreshCart_unresolved_cex :
    (refreshCart (some "u") (.ok [⟨1, "p2", 1, none⟩])
        { items := [⟨0, "p1", 1, some ⟨"p1", "A", 10, "c", 5, true⟩⟩],
          total := 10, itemCount := 1, loading := false }).items
      ≠ [] := by
  decide

/-- C4 (amended): `refreshCart` never discards an unresolved line: when every
fetched line's product resolves it publishes the fetched lines unchanged with
recomputed totals, and when any line's product does not resolve the totals
computation throws and the previous view is kept (only `loading` is
cleared). -/
theorem refreshCart_publish_or_keep (u : String) (items : List CartItem)
    (prev : CartState) :
    refreshCart (some u) (.ok items) prev
      = if items.all (fun it => it.product.isSome)
        then { items := items, total := (items.map lineAmount).sum,
               itemCount := (items.map (·.quantity)).sum, loading := false }
        else { prev with loading := false } := by
  simp only [refreshCart, cart.getItems, transformItems_eq, calculateTotals_closed]
  by_cases hall : items.all (fun it => it.product.isSome) <;> simp [hall]

/-- C5 counterexample: the race the claim describes. The lookup ran against
a snapshot without a line for ("u", "p") (so it reported `none`), and by the
time the insert reaches the store a concurrent add has created the row with
quantity 1. The claim says the unique-constraint violation is retried once as
an update, leaving quantity 3 and no error; the code instead returns the
violation to the caller and the store is unchanged. -/
theorem addItem_race_cex :
    cart.addItemWithSel ⟨[⟨0, "u", "p", 1⟩], 1⟩ "u" "p" 2 none
      = (⟨[⟨0, "u", "p", 1⟩], 1⟩, .error .uniqueViolation) ∧
    (cart.addItemWithSel ⟨[⟨0, "u", "p", 1⟩], 1⟩ "u" "p" 2 none).1.rows
      ≠ [⟨0, "u", "p", 3⟩] :=
  ⟨rfl, by decide⟩

/-- C5 (amended): when `cart.addItem`'s insert hits the store's
(user, product) unique-constraint violation, the violation is surfaced to
the caller as an error and the store is left unchanged; no retry as an
update is performed. -/
theorem addItem_unique_violation_surfaced (s : CartStore) (u p : String)
    (q : Int) (h : s.rows.any (fits u p) = true) :
    cart.addItemWithSel s u p q none = (s, .error .uniqueViolation) := by
  simp [cart.addItemWithSel, insertRow, h]

/-- C5 witness: the amended behaviour at a concrete store already holding
the row. -/
theorem addItem_unique_violation_surfaced_witness :
    (CartStore.mk [⟨0, "u", "p", 1⟩] 1).rows.any (fits "u" "p") = true ∧
    cart.addItemWithSel ⟨[⟨0, "u", "p", 1⟩], 1⟩ "u" "p" 5 none
      = (⟨[⟨0, "u", "p", 1⟩], 1⟩, .error .uniqueViolation) :=
  ⟨by decide,
    addItem_unique_violation_surfaced ⟨[⟨0, "u", "p", 1⟩], 1⟩ "u" "p" 5 (by decide)⟩

/-- C6 (spec-modelled): `createOrder` for an authenticated user with a valid
shipping address, on a cart view in which filtering for active products
leaves zero lines, fails with `EmptyCart`, appends no order row, and leaves
the cart store untouched. -/
theorem createOrder_emptyCart (u : String) (viewItems : List CartItem)
    (addr : String) (s : CartStore) (orderRows : List OrderRow) (nid : String)
    (haddr : addr.isEmpty = false) (hempty : activeLines viewItems = []) :
    createOrder (some u) viewItems addr s orderRows nid
      = (s, orderRows, .error .emptyCart) := by
  simp [createOrder, haddr, hempty]

/-- C6 witness: a concrete cart view whose only line's product is inactive. -/
theorem createOrder_emptyCart_witness :
    ("addr".isEmpty = false) ∧
    activeLines [⟨0, "p1", 2, some ⟨"p1", "T", 10, "c", 0, false⟩⟩] = [] ∧
    createOrder (some "u") [⟨0, "p1", 2, some ⟨"p1", "T", 10, "c", 0, false⟩⟩]
        "addr" ⟨[], 0⟩ [] "o1"
      = (⟨[], 0⟩, [], .error .emptyCart) :=
  ⟨rfl, rfl,
    createOrder_emptyCart "u" [⟨0, "p1", 2, some ⟨"p1", "T", 10, "c", 0, false⟩⟩]
      "addr" ⟨[], 0⟩ [] "o1" rfl rfl⟩

/-- C7 counterexample: a store error during refresh, with a non-empty last
refreshed view. The claim says the view is left exactly at its last
successfully refreshed state; the code's `cart.getItems` maps the error to
an empty item list, so `refreshCart` publishes an empty view instead. -/
theorem refreshCart_storeError_cex :
    (refreshCart (some "u") (.error .noRows)
        { items := [⟨0, "p1", 1, some ⟨"p1", "A", 10, "c", 5, true⟩⟩],
          total := 10, itemCount := 1, loading := false }).items
      ≠ [⟨0, "p1", 1, some ⟨"p1", "A", 10, "c", 5, true⟩⟩] := by
  decide

/-- C7 (amended): when the store fetch behind `refreshCart` fails, the
failure is not surfaced and the view is not kept: `cart.getItems` turns the
error into an empty item list and `refreshCart` publishes an empty view,
whatever the previous view held. -/
theorem refreshCart_storeError_empties (u : String) (e : DbError)
    (prev : CartState) :
    refreshCart (some u) (.error e) prev
      = { items := [], total := 0, itemCount := 0, loading := false } := rfl
